import Mathlib

/-!
Shallow embedding of the client-side session-refresh and appearance subsystem
of the `tanstack-actix-auth-template` repository, together with proofs of the
behavioural claims stated about it.

Embedded source files:
* `web/src/lib/appearance.ts` — appearance preferences, storage persistence,
  and palette token generation;
* `web/src/lib/axios.ts` — the HTTP client with the 401 refresh interceptor
  and the single-flight refresh guard;
* `web/src/contexts/AuthContext.tsx` — the session controller (`refreshUser`);
* `web/src/contexts/AppearanceContext.tsx` — active palette selection
  normalization and custom palette selection.

JavaScript numbers are modelled with `ℚ` (the channel arithmetic performed by
the code — `c + (255 - c) * 0.2` for integer `c ∈ [0, 255]` — is exact enough
in binary64 that rounding agrees with exact rational rounding; the fractional
part of the exact value is always a multiple of 1/5, never 1/2, and the
binary64 error is far below the distance to a rounding boundary).
`JSON.parse` / `JSON.stringify` are modelled by an inductive `JsValue` value
type: a stored string is either empty, unparsable, or a parsed `JsValue` value.
-/

namespace AuthTemplate

/-! ### JSON values (model of the `JSON.parse` result domain) -/

/-- Model of a JavaScript value produced by `JSON.parse`. -/
inductive JsValue where
  | nullV
  | boolV (b : Bool)
  | numV (q : ℚ)
  | strV (s : String)
  | arrV (items : List JsValue)
  | objV (entries : List (String × JsValue))

/-- Model of JavaScript property access `value[key]` on a parsed JSON value:
`JSON.parse` yields objects with unique keys, looked up by name; string keys
such as `"mode"` are absent (`undefined`, modelled `none`) on arrays and
primitives. -/
def JsValue.getField (v : JsValue) (key : String) : Option JsValue :=
  match v with
  | .objV fields => (fields.find? (fun kv => kv.1 = key)).map (fun kv => kv.2)
  | _ => none

/-! ### `appearance.ts` — preferences, persistence, palette generation -/

/-- `COLOR_PALETTES` from `appearance.ts`. -/
def COLOR_PALETTES : List String := ["catppuccin", "tokyo-night", "everforest"]

/-- `AppearancePreferences` from `appearance.ts`. The TypeScript string-union
fields are modelled as strings guarded by the same runtime predicates the
source uses. -/
structure AppearancePreferences where
  mode : String
  palette : String
deriving DecidableEq, Repr

/-- `APPEARANCE_STORAGE_KEY` from `appearance.ts`. -/
def APPEARANCE_STORAGE_KEY : String := "auth-template.appearance"

/-- `DEFAULT_APPEARANCE_PREFERENCES` from `appearance.ts`. -/
def DEFAULT_APPEARANCE_PREFERENCES : AppearancePreferences :=
  { mode := "system", palette := "tokyo-night" }

/-- `LEGACY_COLOR_PALETTE_MAP` from `appearance.ts`, as a partial lookup
(`none` models an absent key, i.e. `undefined`). -/
def LEGACY_COLOR_PALETTE_MAP (key : String) : Option String :=
  if key = "default" then some "tokyo-night"
  else if key = "sunset" then some "catppuccin"
  else if key = "forest" then some "everforest"
  else none

/-- `isRecord` from `appearance.ts`: `typeof value === "object" && value !== null`.
Arrays are objects in JavaScript, so they satisfy the check too. -/
def isRecord (value : JsValue) : Bool :=
  match value with
  | .objV _ => true
  | .arrV _ => true
  | _ => false

/-- `isThemeMode` restricted to strings. -/
def isThemeModeStr (value : String) : Bool :=
  value = "system" || value = "light" || value = "dark"

/-- `isThemeMode` from `appearance.ts`, on an arbitrary JSON value:
`value === "system" || value === "light" || value === "dark"` — true only for
one of the three string constants. -/
def isThemeMode (value : JsValue) : Bool :=
  match value with
  | .strV s => isThemeModeStr s
  | _ => false

/-- `isColorPalette` from `appearance.ts`:
`typeof value === "string" && COLOR_PALETTES.includes(value)`. -/
def isColorPalette (value : String) : Bool :=
  COLOR_PALETTES.contains value

/-- `parseStoredPreferences` from `appearance.ts`. -/
def parseStoredPreferences (storedValue : JsValue) : AppearancePreferences :=
  if isRecord storedValue then
    let storedPalette : Option String :=
      match storedValue.getField "palette" with
      | some (.strV s) => some s
      | _ => none
    let normalizedPalette : Option String :=
      match storedPalette with
      | some s => some ((LEGACY_COLOR_PALETTE_MAP s).getD s)
      | none => none
    { mode :=
        match storedValue.getField "mode" with
        | some (.strV s) => if isThemeModeStr s then s else DEFAULT_APPEARANCE_PREFERENCES.mode
        | _ => DEFAULT_APPEARANCE_PREFERENCES.mode
      palette :=
        match normalizedPalette with
        | some s => if isColorPalette s then s else DEFAULT_APPEARANCE_PREFERENCES.palette
        | none => DEFAULT_APPEARANCE_PREFERENCES.palette }
  else
    DEFAULT_APPEARANCE_PREFERENCES

/-- A raw string held in `localStorage` under some key, abstracted over the
concrete characters: it is either the empty string (falsy in the `!raw`
check), a string `JSON.parse` rejects, or a string parsing to a `JsValue`
value. -/
inductive StoredRaw where
  | emptyStr
  | malformed
  | json (v : JsValue)

/-- Model of `JSON.parse` on a stored raw string: throws (`Except.error`) on
unparsable content. -/
def jsonParse (raw : StoredRaw) : Except Unit JsValue :=
  match raw with
  | .emptyStr => .error ()
  | .malformed => .error ()
  | .json v => .ok v

/-- Model of `JSON.stringify` applied to an `AppearancePreferences` object:
the produced string parses back to the two-field object (`JSON.stringify` /
`JSON.parse` round-trip on a record of strings). -/
def jsonStringifyPreferences (p : AppearancePreferences) : StoredRaw :=
  .json (.objV [("mode", .strV p.mode), ("palette", .strV p.palette)])

/-- An `AppearanceStorage` (the `Pick<Storage, "getItem" | "setItem">` used by
the source): a key-value store of raw strings. -/
def StorageState : Type := List (String × StoredRaw)

/-- `storage.getItem(key)`: `null` (modelled `none`) when the key is absent. -/
def getItem (storage : StorageState) (key : String) : Option StoredRaw :=
  ((storage : List (String × StoredRaw)).find? (fun kv => kv.1 = key)).map (fun kv => kv.2)

/-- `storage.setItem(key, value)`. -/
def setItem (storage : StorageState) (key : String) (value : StoredRaw) : StorageState :=
  (key, value) :: (storage : List (String × StoredRaw)).filter (fun kv => ¬ kv.1 = key)

/-- `loadAppearancePreferences` from `appearance.ts`. `none` models a `null`
storage (no `window.localStorage`); the `try`/`catch` around `getItem` +
`JSON.parse` is modelled by the `jsonParse` error branch, and the `!raw`
falsiness check sends both `null` and the empty string to the defaults. -/
def loadAppearancePreferences (storage : Option StorageState) : AppearancePreferences :=
  match storage with
  | none => DEFAULT_APPEARANCE_PREFERENCES
  | some st =>
    match getItem st APPEARANCE_STORAGE_KEY with
    | none => DEFAULT_APPEARANCE_PREFERENCES
    | some .emptyStr => DEFAULT_APPEARANCE_PREFERENCES
    | some raw =>
      match jsonParse raw with
      | .error _ => DEFAULT_APPEARANCE_PREFERENCES
      | .ok parsed => parseStoredPreferences parsed

/-- `persistAppearancePreferences` from `appearance.ts`: best-effort write of
`JSON.stringify(preferences)` under the fixed key. -/
def persistAppearancePreferences (preferences : AppearancePreferences)
    (storage : Option StorageState) : Option StorageState :=
  match storage with
  | none => none
  | some st => some (setItem st APPEARANCE_STORAGE_KEY (jsonStringifyPreferences preferences))

/-! ### `appearance.ts` — hex parsing and palette token generation -/

/-- Value of one hex digit, covering `0-9`, `a-f`, `A-F` (the character class
`[\da-fA-F]` of the validation regex, and the digits `Number.parseInt(_, 16)`
accepts). -/
def hexDigitValue (c : Char) : Option Nat :=
  let code := c.toNat
  if 48 ≤ code ∧ code ≤ 57 then some (code - 48)
  else if 97 ≤ code ∧ code ≤ 102 then some (code - 97 + 10)
  else if 65 ≤ code ∧ code ≤ 70 then some (code - 65 + 10)
  else none

/-- Whether a character matches `[\da-fA-F]`. -/
def isHexDigitChar (c : Char) : Bool :=
  (hexDigitValue c).isSome

/-- Model of `String.prototype.trim`: drop leading and trailing whitespace
(`Char.isWhitespace` stands in for the ECMAScript whitespace set; no string
handled by these claims contains exotic whitespace). -/
def jsTrim (s : String) : String :=
  ⟨(((s.toList.dropWhile Char.isWhitespace).reverse.dropWhile Char.isWhitespace).reverse : List Char)⟩

/-- `isValidHexColor` from `appearance.ts`:
`/^#[\da-fA-F]{6}$/.test(value.trim())`. -/
def isValidHexColor (value : String) : Bool :=
  match (jsTrim value).toList with
  | '#' :: rest => rest.length = 6 && rest.all isHexDigitChar
  | _ => false

/-- `parseHexChannel` from `appearance.ts`: `Number.parseInt(value, 16)` with
a `NaN` guard. It is only ever applied to the two-character slices of a
string already validated by the hex regex, where `parseInt` reads exactly the
two hex digits. -/
def parseHexChannel (value : String) : Except String Nat :=
  match value.toList with
  | [c1, c2] =>
    match hexDigitValue c1, hexDigitValue c2 with
    | some hi, some lo => .ok (16 * hi + lo)
    | _, _ => .error "Invalid hex color channel"
  | _ => .error "Invalid hex color channel"

/-- `parseHexToRgbChannels` from `appearance.ts`: trim, validate against the
6-digit hex pattern (throwing `"Color must use 6-digit hex format."`
otherwise), then parse the three two-character slices. The pattern match on
the trimmed character list plays the role of the regex test together with the
`slice(1,3)/(3,5)/(5,7)` extraction. -/
def parseHexToRgbChannels (hex : String) : Except String (Nat × Nat × Nat) :=
  match (jsTrim hex).toList with
  | ['#', c1, c2, c3, c4, c5, c6] =>
    if [c1, c2, c3, c4, c5, c6].all isHexDigitChar then do
      let red ← parseHexChannel (String.mk [c1, c2])
      let green ← parseHexChannel (String.mk [c3, c4])
      let blue ← parseHexChannel (String.mk [c5, c6])
      return (red, green, blue)
    else
      .error "Color must use 6-digit hex format."
  | _ => .error "Color must use 6-digit hex format."

/-- `lightenChannel` from `appearance.ts`:
`Math.round(Math.max(0, Math.min(255, channel + (255 - channel) * mixWithWhite)))`.
`round` in Mathlib is `⌊x + 1/2⌋`, exactly the half-up rounding of
`Math.round`. -/
def lightenChannel (channel : ℚ) (mixWithWhite : ℚ) : ℤ :=
  let mixed := channel + (255 - channel) * mixWithWhite
  round (max 0 (min 255 mixed))

/-- `toRgbTriplet` from `appearance.ts`: the template string
produced from the three channel numbers. -/
def toRgbTriplet (channels : ℤ × ℤ × ℤ) : String :=
  toString channels.1 ++ ", " ++ toString channels.2.1 ++ ", " ++ toString channels.2.2

/-- `shadeHexColor` from `appearance.ts`. -/
def shadeHexColor (hex : String) (mixWithWhite : ℚ) : Except String String :=
  match parseHexToRgbChannels hex with
  | .error e => .error e
  | .ok (red, green, blue) =>
    .ok (toRgbTriplet
      (lightenChannel red mixWithWhite,
       lightenChannel green mixWithWhite,
       lightenChannel blue mixWithWhite))

/-- `PaletteSeedHexColors` from `appearance.ts`. -/
structure PaletteSeedHexColors where
  background_seed_hex : String
  text_seed_hex : String
  primary_seed_hex : String
  secondary_seed_hex : String
  green_seed_hex : String
  red_seed_hex : String
  yellow_seed_hex : String
  blue_seed_hex : String
  magenta_seed_hex : String
  cyan_seed_hex : String
deriving DecidableEq, Repr

/-- `PaletteRgbTokens` from `appearance.ts`: the fixed 28-key token schema. -/
structure PaletteRgbTokens where
  background : String
  text : String
  primary_100 : String
  primary_80 : String
  primary_60 : String
  secondary_100 : String
  secondary_80 : String
  secondary_60 : String
  black : String
  white : String
  green_100 : String
  green_80 : String
  green_60 : String
  red_100 : String
  red_80 : String
  red_60 : String
  yellow_100 : String
  yellow_80 : String
  yellow_60 : String
  blue_100 : String
  blue_80 : String
  blue_60 : String
  magenta_100 : String
  magenta_80 : String
  magenta_60 : String
  cyan_100 : String
  cyan_80 : String
  cyan_60 : String
deriving DecidableEq, Repr

/-- `generatePaletteTokensFromSeeds` from `appearance.ts`. A thrown
`Error` is an `Except.error`; the `do` chain evaluates the shades in the
JavaScript evaluation order (the two locals, then the object literal fields),
so the first invalid seed determines the thrown error. -/
def generatePaletteTokensFromSeeds (seedColors : PaletteSeedHexColors) :
    Except String PaletteRgbTokens := do
  let background ← shadeHexColor seedColors.background_seed_hex 0
  let text ← shadeHexColor seedColors.text_seed_hex 0
  let primary_100 ← shadeHexColor seedColors.primary_seed_hex 0
  let primary_80 ← shadeHexColor seedColors.primary_seed_hex 0.2
  let primary_60 ← shadeHexColor seedColors.primary_seed_hex 0.4
  let secondary_100 ← shadeHexColor seedColors.secondary_seed_hex 0
  let secondary_80 ← shadeHexColor seedColors.secondary_seed_hex 0.2
  let secondary_60 ← shadeHexColor seedColors.secondary_seed_hex 0.4
  let green_100 ← shadeHexColor seedColors.green_seed_hex 0
  let green_80 ← shadeHexColor seedColors.green_seed_hex 0.2
  let green_60 ← shadeHexColor seedColors.green_seed_hex 0.4
  let red_100 ← shadeHexColor seedColors.red_seed_hex 0
  let red_80 ← shadeHexColor seedColors.red_seed_hex 0.2
  let red_60 ← shadeHexColor seedColors.red_seed_hex 0.4
  let yellow_100 ← shadeHexColor seedColors.yellow_seed_hex 0
  let yellow_80 ← shadeHexColor seedColors.yellow_seed_hex 0.2
  let yellow_60 ← shadeHexColor seedColors.yellow_seed_hex 0.4
  let blue_100 ← shadeHexColor seedColors.blue_seed_hex 0
  let blue_80 ← shadeHexColor seedColors.blue_seed_hex 0.2
  let blue_60 ← shadeHexColor seedColors.blue_seed_hex 0.4
  let magenta_100 ← shadeHexColor seedColors.magenta_seed_hex 0
  let magenta_80 ← shadeHexColor seedColors.magenta_seed_hex 0.2
  let magenta_60 ← shadeHexColor seedColors.magenta_seed_hex 0.4
  let cyan_100 ← shadeHexColor seedColors.cyan_seed_hex 0
  let cyan_80 ← shadeHexColor seedColors.cyan_seed_hex 0.2
  let cyan_60 ← shadeHexColor seedColors.cyan_seed_hex 0.4
  return {
    background := background
    text := text
    primary_100 := primary_100
    primary_80 := primary_80
    primary_60 := primary_60
    secondary_100 := secondary_100
    secondary_80 := secondary_80
    secondary_60 := secondary_60
    black := text
    white := background
    green_100 := green_100
    green_80 := green_80
    green_60 := green_60
    red_100 := red_100
    red_80 := red_80
    red_60 := red_60
    yellow_100 := yellow_100
    yellow_80 := yellow_80
    yellow_60 := yellow_60
    blue_100 := blue_100
    blue_80 := blue_80
    blue_60 := blue_60
    magenta_100 := magenta_100
    magenta_80 := magenta_80
    magenta_60 := magenta_60
    cyan_100 := cyan_100
    cyan_80 := cyan_80
    cyan_60 := cyan_60 }

/-- All ten seed colors pass the hex validation (listed in the order the
generator evaluates them). -/
def seedsAllValid (s : PaletteSeedHexColors) : Bool :=
  isValidHexColor s.background_seed_hex &&
  isValidHexColor s.text_seed_hex &&
  isValidHexColor s.primary_seed_hex &&
  isValidHexColor s.secondary_seed_hex &&
  isValidHexColor s.green_seed_hex &&
  isValidHexColor s.red_seed_hex &&
  isValidHexColor s.yellow_seed_hex &&
  isValidHexColor s.blue_seed_hex &&
  isValidHexColor s.magenta_seed_hex &&
  isValidHexColor s.cyan_seed_hex

/-- The seed set the repository's own appearance test feeds to the generator
(`background #a9b1d6`, `text #1a1b26`, `primary #9ece6a`, …) — the concrete
scenario named by the specification. -/
def tokyoNightTestSeeds : PaletteSeedHexColors :=
  { background_seed_hex := "#a9b1d6"
    text_seed_hex := "#1a1b26"
    primary_seed_hex := "#9ece6a"
    secondary_seed_hex := "#7aa2f7"
    green_seed_hex := "#336699"
    red_seed_hex := "#e65100"
    yellow_seed_hex := "#f9a825"
    blue_seed_hex := "#1e88e5"
    magenta_seed_hex := "#8e24aa"
    cyan_seed_hex := "#00838f" }

/-! ### `axios.ts` — single-flight refresh guard -/

/-- State of the module-level single-flight refresh guard
(`let inFlightRefreshPromise: Promise<void> | null = null` in `axios.ts`, and
identically `inFlightRefreshRef` in `AuthContext.tsx`). `pending` holds the
identifiers of refresh network operations whose promise is currently stored
in the handle — the code keeps a single nullable variable, so the list is a
faithful super-model in which "two operations in flight at once" is
expressible (and then refuted). `networkCalls` counts started refresh network
requests; `observed` records, per calling invocation, which operation's
promise that caller was handed to await. -/
structure SingleFlightState where
  pending : List Nat
  nextOpId : Nat
  networkCalls : Nat
  observed : List (Nat × Nat)
deriving DecidableEq, Repr

/-- The guard before any refresh has been requested. -/
def initialSingleFlight : SingleFlightState :=
  { pending := [], nextOpId := 0, networkCalls := 0, observed := [] }

/-- Events of the refresh guard: an invocation of
`refreshAccessToken()` / `refreshUser()` by caller `c`, or the settling of
the pending refresh promise with `success` telling fulfilment from
rejection — the `finally` clears the shared handle either way. -/
inductive SingleFlightEvent where
  | call (c : Nat)
  | settle (success : Bool)
deriving DecidableEq, Repr

/-- One step of the single-flight pattern of `refreshAccessToken`
(`axios.ts`) and `refreshUser` (`AuthContext.tsx`): a call finding the handle
empty (`if (!inFlightRefreshPromise)`) starts one network request and stores
its promise in the handle; a call finding a pending promise returns that same
promise without any network activity; settling runs the `finally`, clearing
the handle. -/
def singleFlightStep (s : SingleFlightState) : SingleFlightEvent → SingleFlightState
  | .call c =>
    match s.pending with
    | [] =>
      { pending := [s.nextOpId]
        nextOpId := s.nextOpId + 1
        networkCalls := s.networkCalls + 1
        observed := (c, s.nextOpId) :: s.observed }
    | op :: _ => { s with observed := (c, op) :: s.observed }
  | .settle _ => { s with pending := [] }

/-- Run a sequence of guard events from the initial state. -/
def singleFlightRun (events : List SingleFlightEvent) : SingleFlightState :=
  events.foldl singleFlightStep initialSingleFlight

/-! ### `axios.ts` — the 401 response interceptor -/

/-- `RetryableRequestConfig` from `axios.ts`: the request config with the
mutable `_retry` marker (`retryFlag` here; Lean identifiers cannot begin with
an underscore). `url` is optional on an axios config; the interceptor reads
it as `requestConfig?.url ?? ""`. -/
structure RetryableRequestConfig where
  url : Option String
  retryFlag : Bool
deriving DecidableEq, Repr

/-- Which operation produced an error object: the n-th send of the original
request, or the shared refresh operation. Tracking the source makes "the
*original* request's failure is propagated" a checkable statement about error
identity. -/
inductive ErrorSource where
  | attempt (n : Nat)
  | refreshOp
deriving DecidableEq, Repr

/-- Model of the axios error object the rejected-response interceptor
receives: `error.config` (possibly `undefined`), `error.response?.status`
(possibly `undefined`, e.g. a network failure), and its identity. -/
structure AxiosErrorModel where
  config : Option RetryableRequestConfig
  status : Option Nat
  source : ErrorSource
deriving DecidableEq, Repr

/-- `String.prototype.includes`: substring containment. -/
def urlIncludes (haystack needle : String) : Bool :=
  haystack.toList.tails.any (fun t => needle.toList.isPrefixOf t)

/-- The guard condition of the rejected-response interceptor in `axios.ts`:

`!requestConfig || statusCode !== 401 || requestConfig._retry ||
 requestUrl.includes("/auth/log-in") || requestUrl.includes("/auth/refresh")`

— when it holds the interceptor rethrows the incoming error unchanged. -/
def interceptorThrowsImmediately (requestConfig : Option RetryableRequestConfig)
    (statusCode : Option Nat) : Bool :=
  match requestConfig with
  | none => true
  | some cfg =>
    !(statusCode == some 401) || cfg.retryFlag ||
    urlIncludes (cfg.url.getD "") "/auth/log-in" ||
    urlIncludes (cfg.url.getD "") "/auth/refresh"

/-- Raw outcome of one send of the request, before interception: success, or
a rejection carrying an optional HTTP status and possibly lacking a config
object (`hasConfig = false` models `error.config === undefined`). -/
inductive AttemptOutcome where
  | success
  | failure (status : Option Nat) (hasConfig : Bool)
deriving DecidableEq, Repr

/-- `await refreshAccessToken()` followed by the continuation
`return api(requestConfig)`: a rejected refresh promise makes the `async`
interceptor handler rethrow the refresh's own error, skipping the resend;
a fulfilled one runs the resend continuation. -/
def awaitRefreshThen (refreshResult : Except AxiosErrorModel Unit)
    (resend : Unit → Nat × Except AxiosErrorModel Unit) :
    Nat × Except AxiosErrorModel Unit :=
  match refreshResult with
  | .error refreshErr => (1, .error refreshErr)
  | .ok u => resend u

/-- Execution of one request through `api` with the response interceptor
installed, as a function of the raw outcome of each send (`net n` is the raw
outcome of send number `n`) and of the result of the shared token refresh.
Returns the number of sends performed and the final settlement observed by
the caller.

Mirrors `axios.ts`: on a rejection the interceptor either rethrows the error
unchanged (guard condition), or sets `_retry = true`, awaits
`refreshAccessToken()` — whose own rejection propagates out of the `async`
handler — and on refresh success resends the request via `api(requestConfig)`
with the mutated config. -/
def execRequest (cfg : RetryableRequestConfig) (net : Nat → AttemptOutcome)
    (refreshResult : Except AxiosErrorModel Unit) (attempt : Nat) :
    Nat × Except AxiosErrorModel Unit :=
  match net attempt with
  | .success => (1, .ok ())
  | .failure statusCode hasConfig =>
    if interceptorThrowsImmediately (if hasConfig then some cfg else none) statusCode then
      (1, .error ⟨if hasConfig then some cfg else none, statusCode, .attempt attempt⟩)
    else
      awaitRefreshThen refreshResult (fun _ =>
        let rest := execRequest { cfg with retryFlag := true } net refreshResult (attempt + 1)
        (1 + rest.1, rest.2))
termination_by (if cfg.retryFlag then 0 else 1)
decreasing_by
  cases hcfg : hasConfig with
  | false => simp [hcfg, interceptorThrowsImmediately] at *
  | true =>
    subst hcfg
    simp only [if_true, interceptorThrowsImmediately, Bool.or_eq_true,
      Bool.not_eq_true', beq_iff_eq] at *
    simp_all

/-! ### `AuthContext.tsx` — the session controller -/

/-- `AuthUser` from `AuthContext.tsx`. -/
structure AuthUser where
  id : String
  first_name : String
  last_name : String
  email : String
  email_confirmed : Bool
  created_at : String
  updated_at : String
deriving DecidableEq, Repr

deriving instance DecidableEq for Except

/-- Observable events during one coalesced `refreshUser` episode, in program
order: a `setUser` state update, the clearing of `inFlightRefreshRef` by the
`finally` block, and each caller's settlement (`observe c r`: caller `c`'s
returned promise settles with `r`). -/
inductive AuthEvent where
  | userSet (u : Option AuthUser)
  | refClear
  | observe (c : Nat) (r : Except Nat Unit)
deriving DecidableEq, Repr

/-- The underlying refresh operation of `refreshUser` (the immediately
invoked `async` function): `await api.get("/auth/me")`, then
`setUser(response.data.user)` on success or `setUser(null)` + rethrow in the
`catch`, with the `finally` clearing the in-flight handle in both cases.
`net` is the settlement of the `/auth/me` request (error identity as `Nat`). -/
def runRefreshOperation (net : Except Nat AuthUser) : List AuthEvent :=
  match net with
  | .ok u => [.userSet (some u), .refClear]
  | .error _ => [.userSet none, .refClear]

/-- The per-caller wrapper `refreshPromise.catch((error) => { if
(options?.throwOnError) throw error })`, applied identically to the starting
caller and to every caller that attached to the in-flight promise: the
caller's promise rejects with the underlying error exactly when
`throwOnError` is set, and otherwise fulfils, swallowing the error. -/
def callerSettles (c : Nat) (throwOnError : Bool) (net : Except Nat AuthUser) : AuthEvent :=
  .observe c (match net with
    | .ok _ => .ok ()
    | .error e => if throwOnError then .error e else .ok ())

/-- One full coalesced `refreshUser` episode: callers `0, 1, …` share the
single underlying operation (caller 0 started it; the others found
`inFlightRefreshRef.current` set and attached); `options.throwOnError` of
caller `c` is `throwOnErrorOf[c]`. The underlying operation's `setUser` and
`finally` run before any caller's `.catch` continuation, and the callers
settle in attachment order. -/
def refreshUserEpisode (throwOnErrorOf : List Bool) (net : Except Nat AuthUser) :
    List AuthEvent :=
  runRefreshOperation net ++
    (throwOnErrorOf.enum.map (fun p => callerSettles p.1 p.2 net))

/-! ### `AppearanceContext.tsx` — active palette selection -/

/-- The `palette_type` discriminant of `ActivePaletteSelection`
(`"preset" | "custom"` in `types/models/Appearance.ts`). -/
inductive PaletteType where
  | preset
  | custom
deriving DecidableEq, Repr

/-- `ActivePaletteSelection` from `types/models/Appearance.ts`. The palette
value arrives from the server, so `preset_palette` is modelled as an
arbitrary optional string, guarded (exactly as the code does) by
`isPresetPalette` at use sites. -/
structure ActivePaletteSelection where
  palette_type : PaletteType
  preset_palette : Option String
  custom_palette_id : Option String
deriving DecidableEq, Repr

/-- `CustomPalette` from `types/models/Appearance.ts`, restricted to the
fields the selection logic reads (`id` for existence checks, `name` for the
local duplicate check); the seed and token fields play no role in the claims
about selection. -/
structure CustomPalette where
  id : String
  name : String
deriving DecidableEq, Repr

/-- `createPresetSelection` from `AppearanceContext.tsx`. -/
def createPresetSelection (palette : String) : ActivePaletteSelection :=
  { palette_type := .preset, preset_palette := some palette, custom_palette_id := none }

/-- `isPresetPalette` from `AppearanceContext.tsx`. -/
def isPresetPalette (palette : String) : Bool :=
  palette = "catppuccin" || palette = "tokyo-night" || palette = "everforest"

/-- JavaScript truthiness of a `string | null` value: `null` and the empty
string are falsy. -/
def strTruthy (v : Option String) : Bool :=
  match v with
  | none => false
  | some s => !(s = "")

/-- `normalizeActivePaletteSelection` from `AppearanceContext.tsx`: a
`"custom"` selection survives only if its (truthy) id occurs in the known
custom palette list; otherwise a valid `"preset"` selection is rebuilt, and
anything else collapses to the default preset
(`DEFAULT_APPEARANCE_PREFERENCES.palette`). -/
def normalizeActivePaletteSelection (activePalette : ActivePaletteSelection)
    (customPalettes : List CustomPalette) : ActivePaletteSelection :=
  if activePalette.palette_type = .custom ∧ strTruthy activePalette.custom_palette_id then
    if customPalettes.any (fun p => some p.id = activePalette.custom_palette_id) then
      { palette_type := .custom
        preset_palette := none
        custom_palette_id := activePalette.custom_palette_id }
    else normalizePresetFallback activePalette
  else normalizePresetFallback activePalette
where
  /-- The fall-through of `normalizeActivePaletteSelection`: the second `if`
  (a structurally valid preset selection is rebuilt) and the final default. -/
  normalizePresetFallback (activePalette : ActivePaletteSelection) : ActivePaletteSelection :=
    match activePalette.palette_type, activePalette.preset_palette with
    | .preset, some p =>
      if isPresetPalette p then createPresetSelection p
      else createPresetSelection DEFAULT_APPEARANCE_PREFERENCES.palette
    | _, _ => createPresetSelection DEFAULT_APPEARANCE_PREFERENCES.palette

/-- The provider state `selectCustomPalette` can read or mutate, together
with the persisted preferences. -/
structure AppearanceProviderState where
  activePalette : ActivePaletteSelection
  customPalettes : List CustomPalette
  storage : Option StorageState

/-- A network request issued by `selectCustomPalette`
(`api.put("/appearance/active-palette", …)`). -/
inductive AppearanceNetRequest where
  | putActivePalette (customPaletteId : String)
deriving DecidableEq, Repr

/-- `selectCustomPalette` from `AppearanceContext.tsx`: validate that the id
exists in the currently known set (`throw new Error("Custom palette not
found.")` otherwise — before any network call or state update), then, when
persistence applies, `PUT` the selection (a rejected `PUT` propagates and
prevents the state update), and finally commit the new active selection.
Returns the state after the call, the network requests issued, and the
settlement observed by the caller. -/
def selectCustomPalette (persist isLoggedIn : Bool) (customPaletteId : String)
    (putResult : Except String Unit) (s : AppearanceProviderState) :
    AppearanceProviderState × List AppearanceNetRequest × Except String Unit :=
  if s.customPalettes.any (fun p => p.id = customPaletteId) then
    if persist && isLoggedIn then
      match putResult with
      | .error e => (s, [.putActivePalette customPaletteId], .error e)
      | .ok _ =>
        ({ s with activePalette :=
            { palette_type := .custom
              preset_palette := none
              custom_palette_id := some customPaletteId } },
         [.putActivePalette customPaletteId], .ok ())
    else
      ({ s with activePalette :=
          { palette_type := .custom
            preset_palette := none
            custom_palette_id := some customPaletteId } },
       [], .ok ())
  else
    (s, [], .error "Custom palette not found.")

/-! ### Concrete instances used by counterexamples and witnesses -/

/-- The channel triple of a hex color, defaulting to black on the (excluded)
error case — used to phrase equations about the success path of
`parseHexToRgbChannels`. -/
def hexChannelsD (hex : String) : Nat × Nat × Nat :=
  match parseHexToRgbChannels hex with
  | .ok channels => channels
  | .error _ => (0, 0, 0)

/-- The triplet string `shadeHexColor` produces on its success path, as a
total function of the parsed channels. -/
def shadeValue (hex : String) (mixWithWhite : ℚ) : String :=
  toRgbTriplet
    (lightenChannel (hexChannelsD hex).1 mixWithWhite,
     lightenChannel (hexChannelsD hex).2.1 mixWithWhite,
     lightenChannel (hexChannelsD hex).2.2 mixWithWhite)

/-- A storage whose stored preference object carries an unknown mode
(`"sepia"`) together with a valid palette (`"catppuccin"`). -/
def sepiaStorage : StorageState :=
  [(APPEARANCE_STORAGE_KEY,
    .json (.objV [("mode", .strV "sepia"), ("palette", .strV "catppuccin")]))]

/-- The seed set above with one malformed seed color (a 3-digit hex). -/
def badSeeds : PaletteSeedHexColors :=
  { tokyoNightTestSeeds with red_seed_hex := "#f00" }

/-- The error object of the first (original) send of a `/auth/me` request
that was rejected with status 401. -/
def c3OriginalError : AxiosErrorModel :=
  { config := some { url := some "/auth/me", retryFlag := false }
    status := some 401
    source := .attempt 0 }

/-- The error the shared refresh operation rejects with when the
`POST /auth/refresh` request itself receives a 401 (the interceptor rethrows
it unchanged, because its URL contains `/auth/refresh`). -/
def c3RefreshError : AxiosErrorModel :=
  { config := some { url := some "/auth/refresh", retryFlag := false }
    status := some 401
    source := .refreshOp }

/-! ## Helper lemmas -/

/-- No current palette identifier is a key of the legacy rename table. -/
theorem legacyMap_none_of_isColorPalette {p : String} (h : isColorPalette p = true) :
    LEGACY_COLOR_PALETTE_MAP p = none := by
  have hp : p = "catppuccin" ∨ p = "tokyo-night" ∨ p = "everforest" := by
    simpa [isColorPalette, COLOR_PALETTES] using h
  rcases hp with rfl | rfl | rfl <;> rfl

/-- Writing a key makes it immediately readable. -/
theorem getItem_setItem (st : StorageState) (key : String) (value : StoredRaw) :
    getItem (setItem st key value) key = some value := by
  simp [getItem, setItem, List.find?]

/-! ## C9 -/

/-- C9: for every stored preference object whose palette field is a legacy
identifier, `loadAppearancePreferences` maps it to the current identifier via
the fixed rename table — `"sunset"` loads as `"catppuccin"`, `"default"` as
`"tokyo-night"`, `"forest"` as `"everforest"` — while current identifiers
load unchanged. -/
theorem legacy_palette_identifiers_remap_on_load :
    (∀ (st : StorageState) (v : JsValue),
      getItem st APPEARANCE_STORAGE_KEY = some (.json v) → isRecord v = true →
      v.getField "palette" = some (.strV "sunset") →
      (loadAppearancePreferences (some st)).palette = "catppuccin") ∧
    (∀ (st : StorageState) (v : JsValue),
      getItem st APPEARANCE_STORAGE_KEY = some (.json v) → isRecord v = true →
      v.getField "palette" = some (.strV "default") →
      (loadAppearancePreferences (some st)).palette = "tokyo-night") ∧
    (∀ (st : StorageState) (v : JsValue),
      getItem st APPEARANCE_STORAGE_KEY = some (.json v) → isRecord v = true →
      v.getField "palette" = some (.strV "forest") →
      (loadAppearancePreferences (some st)).palette = "everforest") ∧
    (∀ (st : StorageState) (v : JsValue) (p : String),
      getItem st APPEARANCE_STORAGE_KEY = some (.json v) → isRecord v = true →
      isColorPalette p = true → v.getField "palette" = some (.strV p) →
      (loadAppearancePreferences (some st)).palette = p) := by
  refine ⟨?_, ?_, ?_, ?_⟩ <;> intro st v
  case _ =>
    intro hget hrec hpal
    simp [loadAppearancePreferences, hget, jsonParse, parseStoredPreferences, hrec, hpal,
      LEGACY_COLOR_PALETTE_MAP, isColorPalette, COLOR_PALETTES]
  case _ =>
    intro hget hrec hpal
    simp [loadAppearancePreferences, hget, jsonParse, parseStoredPreferences, hrec, hpal,
      LEGACY_COLOR_PALETTE_MAP, isColorPalette, COLOR_PALETTES]
  case _ =>
    intro hget hrec hpal
    simp [loadAppearancePreferences, hget, jsonParse, parseStoredPreferences, hrec, hpal,
      LEGACY_COLOR_PALETTE_MAP, isColorPalette, COLOR_PALETTES]
  case _ =>
    intro p hget hrec hcur hpal
    simp [loadAppearancePreferences, hget, jsonParse, parseStoredPreferences, hrec, hpal,
      legacyMap_none_of_isColorPalette hcur, hcur]

/-- Witness for C9 at concrete storages. -/
theorem legacy_palette_identifiers_remap_on_load_witness :
    (loadAppearancePreferences (some [(APPEARANCE_STORAGE_KEY,
      .json (.objV [("mode", .strV "dark"), ("palette", .strV "sunset")]))])).palette =
      "catppuccin" ∧
    (loadAppearancePreferences (some [(APPEARANCE_STORAGE_KEY,
      .json (.objV [("palette", .strV "default")]))])).palette = "tokyo-night" ∧
    (loadAppearancePreferences (some [(APPEARANCE_STORAGE_KEY,
      .json (.objV [("palette", .strV "forest")]))])).palette = "everforest" ∧
    (loadAppearancePreferences (some [(APPEARANCE_STORAGE_KEY,
      .json (.objV [("palette", .strV "everforest")]))])).palette = "everforest" :=
  ⟨legacy_palette_identifiers_remap_on_load.1 _ _ rfl rfl rfl,
   legacy_palette_identifiers_remap_on_load.2.1 _ _ rfl rfl rfl,
   legacy_palette_identifiers_remap_on_load.2.2.1 _ _ rfl rfl rfl,
   legacy_palette_identifiers_remap_on_load.2.2.2 _ _ _ rfl rfl (by decide) rfl⟩

/-! ## C8 -/

/-- C8: for every custom-palette id not present in the currently known set,
`selectCustomPalette` throws `"Custom palette not found."` before performing
any state mutation or network call — the provider state is returned unchanged
and the list of issued network requests is empty, for every persistence mode
and whatever the `PUT` endpoint would have answered. -/
theorem selectCustomPalette_unknown_id_throws_before_mutation :
    ∀ (persist isLoggedIn : Bool) (customPaletteId : String)
      (putResult : Except String Unit) (s : AppearanceProviderState),
      (∀ p ∈ s.customPalettes, ¬ p.id = customPaletteId) →
      selectCustomPalette persist isLoggedIn customPaletteId putResult s =
        (s, [], .error "Custom palette not found.") := by
  intro persist isLoggedIn customPaletteId putResult s h
  have hany : s.customPalettes.any (fun p => p.id = customPaletteId) = false := by
    simp only [List.any_eq_false, decide_eq_true_eq]
    exact h
  simp [selectCustomPalette, hany]

/-- Witness for C8: selecting the absent id `"missing"` while `"p1"` is the
only known palette. -/
theorem selectCustomPalette_unknown_id_throws_before_mutation_witness :
    selectCustomPalette true true "missing" (.ok ())
        { activePalette := createPresetSelection "tokyo-night"
          customPalettes := [{ id := "p1", name := "Mine" }]
          storage := none } =
      ({ activePalette := createPresetSelection "tokyo-night"
         customPalettes := [{ id := "p1", name := "Mine" }]
         storage := none }, [], .error "Custom palette not found.") :=
  selectCustomPalette_unknown_id_throws_before_mutation true true "missing" (.ok ()) _
    (by decide)

/-! ## C7 -/

/-- The fall-through of the normalization always rebuilds a structurally
valid preset selection. -/
theorem normalizePresetFallback_is_valid_preset (ap : ActivePaletteSelection) :
    (normalizeActivePaletteSelection.normalizePresetFallback ap).palette_type = .preset ∧
    ∃ pp, (normalizeActivePaletteSelection.normalizePresetFallback ap).preset_palette =
      some pp ∧ isPresetPalette pp = true := by
  rcases ap with ⟨pt, pp, id⟩
  cases pt with
  | custom =>
    cases pp <;> exact ⟨rfl, "tokyo-night", rfl, by decide⟩
  | preset =>
    cases pp with
    | none => exact ⟨rfl, "tokyo-night", rfl, by decide⟩
    | some p =>
      by_cases hp : isPresetPalette p = true
      · refine ⟨?_, p, ?_, hp⟩ <;>
          simp [normalizeActivePaletteSelection.normalizePresetFallback, hp,
            createPresetSelection]
      · have hp' : isPresetPalette p = false := by simpa using hp
        refine ⟨?_, "tokyo-night", ?_, by decide⟩ <;>
          simp [normalizeActivePaletteSelection.normalizePresetFallback, hp',
            createPresetSelection, DEFAULT_APPEARANCE_PREFERENCES]

/-- On a `"custom"` input selection the fall-through is exactly the default
preset selection. -/
theorem normalizePresetFallback_of_custom (ap : ActivePaletteSelection)
    (h : ap.palette_type = .custom) :
    normalizeActivePaletteSelection.normalizePresetFallback ap =
      createPresetSelection "tokyo-night" := by
  cases hpp : ap.preset_palette <;>
    simp [normalizeActivePaletteSelection.normalizePresetFallback, h, hpp,
      DEFAULT_APPEARANCE_PREFERENCES]

/-- C7: `normalizeActivePaletteSelection` returns a `"custom"` selection only
if the referenced id exists in the custom palette list; a `"custom"`
selection referencing an id absent from the list normalizes to the default
preset selection (`tokyo-night`), not to an error; and the committed result
always references an existing custom palette or carries a valid preset. -/
theorem normalizeActivePaletteSelection_sound :
    ∀ (activePalette : ActivePaletteSelection) (customPalettes : List CustomPalette),
      ((normalizeActivePaletteSelection activePalette customPalettes).palette_type = .custom →
        ∃ p ∈ customPalettes,
          some p.id =
            (normalizeActivePaletteSelection activePalette customPalettes).custom_palette_id) ∧
      ((normalizeActivePaletteSelection activePalette customPalettes).palette_type = .preset →
        ∃ pp,
          (normalizeActivePaletteSelection activePalette customPalettes).preset_palette =
            some pp ∧ isPresetPalette pp = true) ∧
      (activePalette.palette_type = .custom →
        (∀ p ∈ customPalettes, ¬ some p.id = activePalette.custom_palette_id) →
        normalizeActivePaletteSelection activePalette customPalettes =
          createPresetSelection "tokyo-night") := by
  intro ap cps
  by_cases h1 : ap.palette_type = .custom ∧ strTruthy ap.custom_palette_id = true
  · by_cases h2 : cps.any (fun p => some p.id = ap.custom_palette_id) = true
    · have hnorm : normalizeActivePaletteSelection ap cps =
          { palette_type := .custom, preset_palette := none,
            custom_palette_id := ap.custom_palette_id } := by
        simp [normalizeActivePaletteSelection, h1, h2]
      refine ⟨?_, ?_, ?_⟩
      · intro _
        rw [hnorm]
        obtain ⟨p, hp, hpid⟩ := List.any_eq_true.mp h2
        exact ⟨p, hp, of_decide_eq_true hpid⟩
      · intro hpre
        rw [hnorm] at hpre
        cases hpre
      · intro _ habs
        exfalso
        obtain ⟨p, hp, hpid⟩ := List.any_eq_true.mp h2
        exact habs p hp (of_decide_eq_true hpid)
    · have hnorm : normalizeActivePaletteSelection ap cps =
          normalizeActivePaletteSelection.normalizePresetFallback ap := by
        simp [normalizeActivePaletteSelection, h1, h2]
      refine ⟨?_, ?_, ?_⟩
      · intro hcus
        rw [hnorm] at hcus
        rw [(normalizePresetFallback_is_valid_preset ap).1] at hcus
        cases hcus
      · intro _
        rw [hnorm]
        exact (normalizePresetFallback_is_valid_preset ap).2
      · intro hcustom _
        rw [hnorm]
        exact normalizePresetFallback_of_custom ap hcustom
  · have hnorm : normalizeActivePaletteSelection ap cps =
        normalizeActivePaletteSelection.normalizePresetFallback ap := by
      simp only [normalizeActivePaletteSelection, if_neg h1]
    refine ⟨?_, ?_, ?_⟩
    · intro hcus
      rw [hnorm] at hcus
      rw [(normalizePresetFallback_is_valid_preset ap).1] at hcus
      cases hcus
    · intro _
      rw [hnorm]
      exact (normalizePresetFallback_is_valid_preset ap).2
    · intro hcustom _
      rw [hnorm]
      exact normalizePresetFallback_of_custom ap hcustom

/-- Witness for C7: a `"custom"` selection referencing the id `"gone"`, which
is absent from the fetched palette list, normalizes to the default preset. -/
theorem normalizeActivePaletteSelection_sound_witness :
    normalizeActivePaletteSelection
        { palette_type := .custom, preset_palette := none,
          custom_palette_id := some "gone" }
        [{ id := "kept", name := "Kept" }] =
      createPresetSelection "tokyo-night" :=
  (normalizeActivePaletteSelection_sound _ _).2.2 rfl (by decide)

/-! ## C5 -/

/-- Counterexample to C5 as stated: a storage whose stored value carries the
unknown mode `"sepia"` together with the valid palette `"catppuccin"` does
not load as the documented defaults — the mode falls back to `"system"`, but
the stored palette is kept, so the result differs from
`DEFAULT_APPEARANCE_PREFERENCES` (whose palette is `"tokyo-night"`). -/
theorem load_unknown_mode_not_full_defaults :
    loadAppearancePreferences (some sepiaStorage) =
      { mode := "system", palette := "catppuccin" } ∧
    ¬ loadAppearancePreferences (some sepiaStorage) = DEFAULT_APPEARANCE_PREFERENCES := by
  constructor
  · rfl
  · decide

/-- C5 (amended): `loadAppearancePreferences` is total; a `null` storage, an
absent key, an empty stored string, or malformed JSON loads as the documented
defaults; a stored value with an unknown mode loads with the default mode
`"system"` (the mode and palette fields fall back independently, so the full
default pair is produced only when the palette field is also missing or
invalid); and loading after persisting a valid preference `P` on the same
storage returns `P`. -/
theorem load_defaults_and_persist_roundtrip :
    (loadAppearancePreferences none = DEFAULT_APPEARANCE_PREFERENCES) ∧
    (∀ st : StorageState, getItem st APPEARANCE_STORAGE_KEY = none →
      loadAppearancePreferences (some st) = DEFAULT_APPEARANCE_PREFERENCES) ∧
    (∀ st : StorageState,
      getItem st APPEARANCE_STORAGE_KEY = some .emptyStr ∨
      getItem st APPEARANCE_STORAGE_KEY = some .malformed →
      loadAppearancePreferences (some st) = DEFAULT_APPEARANCE_PREFERENCES) ∧
    (∀ (st : StorageState) (v : JsValue),
      getItem st APPEARANCE_STORAGE_KEY = some (.json v) →
      (∀ s, v.getField "mode" = some (.strV s) → isThemeModeStr s = false) →
      (loadAppearancePreferences (some st)).mode = "system") ∧
    (∀ (P : AppearancePreferences) (st : StorageState),
      isThemeModeStr P.mode = true → isColorPalette P.palette = true →
      loadAppearancePreferences (persistAppearancePreferences P (some st)) = P) := by
  refine ⟨rfl, ?_, ?_, ?_, ?_⟩
  · intro st hget
    simp [loadAppearancePreferences, hget]
  · intro st hget
    rcases hget with h | h <;> simp [loadAppearancePreferences, h, jsonParse]
  · intro st v hget hmode
    by_cases hrec : isRecord v = true
    · rcases hm : v.getField "mode" with _ | j
      · simp [loadAppearancePreferences, hget, jsonParse, parseStoredPreferences, hrec, hm,
          DEFAULT_APPEARANCE_PREFERENCES]
      · cases j <;>
          simp [loadAppearancePreferences, hget, jsonParse, parseStoredPreferences, hrec, hm,
            DEFAULT_APPEARANCE_PREFERENCES]
        rename_i s
        simp [hmode s hm]
    · have hrec' : isRecord v = false := by simpa using hrec
      simp [loadAppearancePreferences, hget, jsonParse, parseStoredPreferences, hrec',
        DEFAULT_APPEARANCE_PREFERENCES]
  · intro P st hmode hpal
    simp [persistAppearancePreferences, loadAppearancePreferences,
      getItem_setItem, jsonStringifyPreferences, jsonParse, parseStoredPreferences,
      isRecord, JsValue.getField, List.find?, hmode, hpal,
      legacyMap_none_of_isColorPalette hpal]

/-- Witness for C5 (amended) at concrete storages: an empty storage, a
malformed stored string, a stored object with the unknown mode `"sepia"`,
and a persist/load round trip of a valid preference. -/
theorem load_defaults_and_persist_roundtrip_witness :
    loadAppearancePreferences (some ([] : StorageState)) = DEFAULT_APPEARANCE_PREFERENCES ∧
    loadAppearancePreferences (some [(APPEARANCE_STORAGE_KEY, .malformed)]) =
      DEFAULT_APPEARANCE_PREFERENCES ∧
    (loadAppearancePreferences (some sepiaStorage)).mode = "system" ∧
    loadAppearancePreferences
        (persistAppearancePreferences { mode := "dark", palette := "everforest" }
          (some ([] : StorageState))) =
      { mode := "dark", palette := "everforest" } :=
  ⟨load_defaults_and_persist_roundtrip.2.1 [] rfl,
   load_defaults_and_persist_roundtrip.2.2.1 [(APPEARANCE_STORAGE_KEY, .malformed)]
     (Or.inr rfl),
   load_defaults_and_persist_roundtrip.2.2.2.1 sepiaStorage
     (.objV [("mode", .strV "sepia"), ("palette", .strV "catppuccin")]) rfl
     (fun s hs => by
       injection hs with h
       injection h with h2
       rw [← h2]
       decide),
   load_defaults_and_persist_roundtrip.2.2.2.2 { mode := "dark", palette := "everforest" } []
     (by decide) (by decide)⟩

/-! ## Hex parsing: success and failure characterization -/

/-- On a string passing the hex validation, `parseHexToRgbChannels`
succeeds. -/
theorem parseHexToRgbChannels_ok_of_valid {hex : String}
    (h : isValidHexColor hex = true) :
    parseHexToRgbChannels hex = .ok (hexChannelsD hex) := by
  suffices hs : ∃ ch, parseHexToRgbChannels hex = .ok ch by
    obtain ⟨ch, hch⟩ := hs
    rw [hch, hexChannelsD, hch]
  unfold isValidHexColor at h
  split at h
  case _ rest heq =>
    rw [Bool.and_eq_true, decide_eq_true_eq] at h
    obtain ⟨hlen, hall⟩ := h
    obtain ⟨c1, c2, c3, c4, c5, c6, rfl⟩ :
        ∃ a b c d e f, rest = [a, b, c, d, e, f] := by
      rcases rest with _ | ⟨a, _ | ⟨b, _ | ⟨c, _ | ⟨d, _ | ⟨e, _ | ⟨f, _ | ⟨g, r⟩⟩⟩⟩⟩⟩⟩ <;>
        simp at hlen
      exact ⟨a, b, c, d, e, f, rfl⟩
    simp only [List.all_cons, List.all_nil, Bool.and_eq_true, Bool.and_true, and_true] at hall
    obtain ⟨g1, g2, g3, g4, g5, g6⟩ := hall
    unfold isHexDigitChar at g1 g2 g3 g4 g5 g6
    obtain ⟨v1, hv1⟩ := Option.isSome_iff_exists.mp g1
    obtain ⟨v2, hv2⟩ := Option.isSome_iff_exists.mp g2
    obtain ⟨v3, hv3⟩ := Option.isSome_iff_exists.mp g3
    obtain ⟨v4, hv4⟩ := Option.isSome_iff_exists.mp g4
    obtain ⟨v5, hv5⟩ := Option.isSome_iff_exists.mp g5
    obtain ⟨v6, hv6⟩ := Option.isSome_iff_exists.mp g6
    refine ⟨(16 * v1 + v2, 16 * v3 + v4, 16 * v5 + v6), ?_⟩
    unfold parseHexToRgbChannels
    rw [heq]
    simp [isHexDigitChar, hv1, hv2, hv3, hv4, hv5, hv6, parseHexChannel, String.toList,
      Bind.bind, Except.bind, Functor.map, Except.map, Pure.pure, Except.pure]
  case _ =>
    simp at h

/-- On a string failing the hex validation, `parseHexToRgbChannels` throws
the format error. -/
theorem parseHexToRgbChannels_error_of_invalid {hex : String}
    (h : isValidHexColor hex = false) :
    parseHexToRgbChannels hex = .error "Color must use 6-digit hex format." := by
  unfold parseHexToRgbChannels
  split
  case _ c1 c2 c3 c4 c5 c6 heq =>
    unfold isValidHexColor at h
    rw [heq] at h
    simp at h
    by_cases hall : ([c1, c2, c3, c4, c5, c6].all isHexDigitChar) = true
    · exfalso
      simp only [List.all_cons, List.all_nil, Bool.and_eq_true, Bool.and_true, and_true] at hall
      obtain ⟨g1, g2, g3, g4, g5, g6⟩ := hall
      rw [h g1 g2 g3 g4 g5] at g6
      simp at g6
    · rw [if_neg hall]
  case _ => rfl

/-- On a valid seed, `shadeHexColor` produces the lightened triplet of the
parsed channels. -/
theorem shadeHexColor_of_valid {hex : String} (h : isValidHexColor hex = true)
    (mixWithWhite : ℚ) :
    shadeHexColor hex mixWithWhite = .ok (shadeValue hex mixWithWhite) := by
  have hp := parseHexToRgbChannels_ok_of_valid h
  rcases hch : hexChannelsD hex with ⟨r, g, b⟩
  rw [hch] at hp
  unfold shadeHexColor
  rw [hp]
  simp [shadeValue, hch]

/-- On an invalid seed, `shadeHexColor` throws the format error. -/
theorem shadeHexColor_of_invalid {hex : String} (h : isValidHexColor hex = false)
    (mixWithWhite : ℚ) :
    shadeHexColor hex mixWithWhite = .error "Color must use 6-digit hex format." := by
  unfold shadeHexColor
  rw [parseHexToRgbChannels_error_of_invalid h]

/-- Closed form of `lightenChannel` on an integer channel `n ≤ 255` at the
mix `p/5` (`p ≤ 5`): the clamp is inert and half-up rounding of
`(5n + (255-n)p)/5` is the integer division `(2(5n + (255-n)p) + 5) / 10`. -/
theorem lightenChannel_natCast (n p : ℕ) (hn : n ≤ 255) (hp : p ≤ 5) :
    lightenChannel (n : ℚ) ((p : ℚ) / 5) =
      (2 * (5 * (n : ℤ) + (255 - (n : ℤ)) * (p : ℤ)) + 5) / ((10 : ℕ) : ℤ) := by
  have hcn : (n : ℚ) ≤ 255 := by exact_mod_cast hn
  have hcp : (p : ℚ) ≤ 5 := by exact_mod_cast hp
  have h0n : (0 : ℚ) ≤ (n : ℚ) := by positivity
  have h0p : (0 : ℚ) ≤ (p : ℚ) := by positivity
  show round (max 0 (min 255 ((n : ℚ) + (255 - n) * ((p : ℚ) / 5)))) = _
  have hub : (n : ℚ) + (255 - n) * ((p : ℚ) / 5) ≤ 255 := by nlinarith
  have hlb : (0 : ℚ) ≤ (n : ℚ) + (255 - n) * ((p : ℚ) / 5) := by nlinarith
  rw [min_eq_right hub, max_eq_right hlb, round_eq]
  have hconv : (n : ℚ) + (255 - n) * ((p : ℚ) / 5) + 1 / 2 =
      ((2 * (5 * (n : ℤ) + (255 - (n : ℤ)) * (p : ℤ)) + 5 : ℤ) : ℚ) / ((10 : ℕ) : ℚ) := by
    push_cast
    ring
  rw [hconv, Rat.floor_intCast_div_natCast]

/-- `lightenChannel` at mix 0 is the identity on integer channels. -/
theorem lightenChannel_mix_zero (n : ℕ) (hn : n ≤ 255) :
    lightenChannel (n : ℚ) 0 = (n : ℤ) := by
  have h := lightenChannel_natCast n 0 hn (by norm_num)
  rw [show ((0 : ℕ) : ℚ) / 5 = 0 by norm_num] at h
  rw [h]
  omega

/-- `lightenChannel` at mix 0.2 in closed integer form. -/
theorem lightenChannel_mix_point2 (n : ℕ) (hn : n ≤ 255) :
    lightenChannel (n : ℚ) 0.2 =
      (2 * (5 * (n : ℤ) + (255 - (n : ℤ))) + 5) / ((10 : ℕ) : ℤ) := by
  have h := lightenChannel_natCast n 1 hn (by norm_num)
  rw [show ((1 : ℕ) : ℚ) / 5 = 0.2 by norm_num] at h
  rw [h]
  norm_num

/-- `lightenChannel` at mix 0.4 in closed integer form. -/
theorem lightenChannel_mix_point4 (n : ℕ) (hn : n ≤ 255) :
    lightenChannel (n : ℚ) 0.4 =
      (2 * (5 * (n : ℤ) + (255 - (n : ℤ)) * 2) + 5) / ((10 : ℕ) : ℤ) := by
  have h := lightenChannel_natCast n 2 hn (by norm_num)
  rw [show ((2 : ℕ) : ℚ) / 5 = 0.4 by norm_num] at h
  rw [h]
  norm_num

/-- On a fully valid seed record the generator succeeds with exactly the
shade values of each seed at the prescribed mixes (in particular the
background/text shades are unmixed and duplicated as `white`/`black`). -/
theorem generate_eq_of_valid (s : PaletteSeedHexColors) (h : seedsAllValid s = true) :
    generatePaletteTokensFromSeeds s = .ok
      { background := shadeValue s.background_seed_hex 0
        text := shadeValue s.text_seed_hex 0
        primary_100 := shadeValue s.primary_seed_hex 0
        primary_80 := shadeValue s.primary_seed_hex 0.2
        primary_60 := shadeValue s.primary_seed_hex 0.4
        secondary_100 := shadeValue s.secondary_seed_hex 0
        secondary_80 := shadeValue s.secondary_seed_hex 0.2
        secondary_60 := shadeValue s.secondary_seed_hex 0.4
        black := shadeValue s.text_seed_hex 0
        white := shadeValue s.background_seed_hex 0
        green_100 := shadeValue s.green_seed_hex 0
        green_80 := shadeValue s.green_seed_hex 0.2
        green_60 := shadeValue s.green_seed_hex 0.4
        red_100 := shadeValue s.red_seed_hex 0
        red_80 := shadeValue s.red_seed_hex 0.2
        red_60 := shadeValue s.red_seed_hex 0.4
        yellow_100 := shadeValue s.yellow_seed_hex 0
        yellow_80 := shadeValue s.yellow_seed_hex 0.2
        yellow_60 := shadeValue s.yellow_seed_hex 0.4
        blue_100 := shadeValue s.blue_seed_hex 0
        blue_80 := shadeValue s.blue_seed_hex 0.2
        blue_60 := shadeValue s.blue_seed_hex 0.4
        magenta_100 := shadeValue s.magenta_seed_hex 0
        magenta_80 := shadeValue s.magenta_seed_hex 0.2
        magenta_60 := shadeValue s.magenta_seed_hex 0.4
        cyan_100 := shadeValue s.cyan_seed_hex 0
        cyan_80 := shadeValue s.cyan_seed_hex 0.2
        cyan_60 := shadeValue s.cyan_seed_hex 0.4 } := by
  rw [seedsAllValid] at h
  simp only [Bool.and_eq_true] at h
  obtain ⟨⟨⟨⟨⟨⟨⟨⟨⟨hbg, htx⟩, hpr⟩, hse⟩, hgr⟩, hre⟩, hye⟩, hbl⟩, hma⟩, hcy⟩ := h
  simp only [generatePaletteTokensFromSeeds, shadeHexColor_of_valid hbg,
    shadeHexColor_of_valid htx, shadeHexColor_of_valid hpr, shadeHexColor_of_valid hse,
    shadeHexColor_of_valid hgr, shadeHexColor_of_valid hre, shadeHexColor_of_valid hye,
    shadeHexColor_of_valid hbl, shadeHexColor_of_valid hma, shadeHexColor_of_valid hcy,
    Bind.bind, Except.bind, Pure.pure, Except.pure]

/-! ## C10 -/

/-- C10: `generatePaletteTokensFromSeeds` is total exactly on seed records
whose ten colors, after trimming, match the 6-digit `#rrggbb` pattern: if all
ten seeds validate it never throws, and if any seed fails the pattern it
throws `"Color must use 6-digit hex format."` (the generator stops at the
first invalid seed in evaluation order, and every invalid seed raises this
same message). -/
theorem generatePaletteTokens_total_iff_valid :
    ∀ seedColors : PaletteSeedHexColors,
      (seedsAllValid seedColors = true →
        ∃ t, generatePaletteTokensFromSeeds seedColors = .ok t) ∧
      (seedsAllValid seedColors = false →
        generatePaletteTokensFromSeeds seedColors =
          .error "Color must use 6-digit hex format.") := by
  intro s
  cases hbg : isValidHexColor s.background_seed_hex with
  | false =>
    refine ⟨fun ht => ?_, fun _ => ?_⟩
    · rw [seedsAllValid, hbg] at ht
      simp at ht
    · simp [generatePaletteTokensFromSeeds, shadeHexColor_of_invalid hbg,
        Bind.bind, Except.bind]
  | true =>
  cases htx : isValidHexColor s.text_seed_hex with
  | false =>
    refine ⟨fun ht => ?_, fun _ => ?_⟩
    · rw [seedsAllValid, htx] at ht
      simp at ht
    · simp [generatePaletteTokensFromSeeds, shadeHexColor_of_valid hbg,
        shadeHexColor_of_invalid htx, Bind.bind, Except.bind]
  | true =>
  cases hpr : isValidHexColor s.primary_seed_hex with
  | false =>
    refine ⟨fun ht => ?_, fun _ => ?_⟩
    · rw [seedsAllValid, hpr] at ht
      simp at ht
    · simp [generatePaletteTokensFromSeeds, shadeHexColor_of_valid hbg,
        shadeHexColor_of_valid htx, shadeHexColor_of_invalid hpr, Bind.bind, Except.bind]
  | true =>
  cases hse : isValidHexColor s.secondary_seed_hex with
  | false =>
    refine ⟨fun ht => ?_, fun _ => ?_⟩
    · rw [seedsAllValid, hse] at ht
      simp at ht
    · simp [generatePaletteTokensFromSeeds, shadeHexColor_of_valid hbg,
        shadeHexColor_of_valid htx, shadeHexColor_of_valid hpr,
        shadeHexColor_of_invalid hse, Bind.bind, Except.bind]
  | true =>
  cases hgr : isValidHexColor s.green_seed_hex with
  | false =>
    refine ⟨fun ht => ?_, fun _ => ?_⟩
    · rw [seedsAllValid, hgr] at ht
      simp at ht
    · simp [generatePaletteTokensFromSeeds, shadeHexColor_of_valid hbg,
        shadeHexColor_of_valid htx, shadeHexColor_of_valid hpr, shadeHexColor_of_valid hse,
        shadeHexColor_of_invalid hgr, Bind.bind, Except.bind]
  | true =>
  cases hre : isValidHexColor s.red_seed_hex with
  | false =>
    refine ⟨fun ht => ?_, fun _ => ?_⟩
    · rw [seedsAllValid, hre] at ht
      simp at ht
    · simp [generatePaletteTokensFromSeeds, shadeHexColor_of_valid hbg,
        shadeHexColor_of_valid htx, shadeHexColor_of_valid hpr, shadeHexColor_of_valid hse,
        shadeHexColor_of_valid hgr, shadeHexColor_of_invalid hre, Bind.bind, Except.bind]
  | true =>
  cases hye : isValidHexColor s.yellow_seed_hex with
  | false =>
    refine ⟨fun ht => ?_, fun _ => ?_⟩
    · rw [seedsAllValid, hye] at ht
      simp at ht
    · simp [generatePaletteTokensFromSeeds, shadeHexColor_of_valid hbg,
        shadeHexColor_of_valid htx, shadeHexColor_of_valid hpr, shadeHexColor_of_valid hse,
        shadeHexColor_of_valid hgr, shadeHexColor_of_valid hre,
        shadeHexColor_of_invalid hye, Bind.bind, Except.bind]
  | true =>
  cases hbl : isValidHexColor s.blue_seed_hex with
  | false =>
    refine ⟨fun ht => ?_, fun _ => ?_⟩
    · rw [seedsAllValid, hbl] at ht
      simp at ht
    · simp [generatePaletteTokensFromSeeds, shadeHexColor_of_valid hbg,
        shadeHexColor_of_valid htx, shadeHexColor_of_valid hpr, shadeHexColor_of_valid hse,
        shadeHexColor_of_valid hgr, shadeHexColor_of_valid hre, shadeHexColor_of_valid hye,
        shadeHexColor_of_invalid hbl, Bind.bind, Except.bind]
  | true =>
  cases hma : isValidHexColor s.magenta_seed_hex with
  | false =>
    refine ⟨fun ht => ?_, fun _ => ?_⟩
    · rw [seedsAllValid, hma] at ht
      simp at ht
    · simp [generatePaletteTokensFromSeeds, shadeHexColor_of_valid hbg,
        shadeHexColor_of_valid htx, shadeHexColor_of_valid hpr, shadeHexColor_of_valid hse,
        shadeHexColor_of_valid hgr, shadeHexColor_of_valid hre, shadeHexColor_of_valid hye,
        shadeHexColor_of_valid hbl, shadeHexColor_of_invalid hma, Bind.bind, Except.bind]
  | true =>
  cases hcy : isValidHexColor s.cyan_seed_hex with
  | false =>
    refine ⟨fun ht => ?_, fun _ => ?_⟩
    · rw [seedsAllValid, hcy] at ht
      simp at ht
    · simp [generatePaletteTokensFromSeeds, shadeHexColor_of_valid hbg,
        shadeHexColor_of_valid htx, shadeHexColor_of_valid hpr, shadeHexColor_of_valid hse,
        shadeHexColor_of_valid hgr, shadeHexColor_of_valid hre, shadeHexColor_of_valid hye,
        shadeHexColor_of_valid hbl, shadeHexColor_of_valid hma,
        shadeHexColor_of_invalid hcy, Bind.bind, Except.bind]
  | true =>
    refine ⟨fun _ => ?_, fun hf => ?_⟩
    · cases hgen : generatePaletteTokensFromSeeds s with
      | ok t => exact ⟨t, rfl⟩
      | error e =>
        simp only [generatePaletteTokensFromSeeds, shadeHexColor_of_valid hbg,
          shadeHexColor_of_valid htx, shadeHexColor_of_valid hpr, shadeHexColor_of_valid hse,
          shadeHexColor_of_valid hgr, shadeHexColor_of_valid hre, shadeHexColor_of_valid hye,
          shadeHexColor_of_valid hbl, shadeHexColor_of_valid hma, shadeHexColor_of_valid hcy,
          Bind.bind, Except.bind, Pure.pure, Except.pure] at hgen
        exact Except.noConfusion hgen
    · rw [seedsAllValid, hbg, htx, hpr, hse, hgr, hre, hye, hbl, hma, hcy] at hf
      simp at hf

/-- Witness for C10: the generator succeeds on the repository test seed set
and throws the format error once one seed is replaced by a 3-digit hex. -/
theorem generatePaletteTokens_total_iff_valid_witness :
    (∃ t, generatePaletteTokensFromSeeds tokyoNightTestSeeds = .ok t) ∧
    generatePaletteTokensFromSeeds badSeeds =
      .error "Color must use 6-digit hex format." :=
  ⟨(generatePaletteTokens_total_iff_valid tokyoNightTestSeeds).1 (by decide),
   (generatePaletteTokens_total_iff_valid badSeeds).2 (by decide)⟩

/-! ## C6 -/

/-- C6: `generatePaletteTokensFromSeeds` is a pure function of the ten seed
colors. On valid seeds it succeeds, the background/text seeds contribute one
unmixed shade each duplicated as the `white`/`black` aliases, and the accent
shades arise from `shadeHexColor` at the mixes 0, 0.2 and 0.4 (shown for the
primary seed; all accents go through the same three calls). `lightenChannel`
at a nonneg mix never darkens a channel in `[0, 255]`, so each channel of the
`_80`/`_60` shades is ≥ the corresponding `_100` channel. For the
repository's test seed set with primary `#9ece6a`, `primary_100` is
`"158, 206, 106"` with the `_80`/`_60` shades per-channel above it. -/
theorem generatePaletteTokens_shades_and_scenario :
    (∀ seedColors : PaletteSeedHexColors, seedsAllValid seedColors = true →
      ∃ t, generatePaletteTokensFromSeeds seedColors = .ok t ∧
        t.black = t.text ∧ t.white = t.background ∧
        shadeHexColor seedColors.background_seed_hex 0 = .ok t.background ∧
        shadeHexColor seedColors.text_seed_hex 0 = .ok t.text ∧
        shadeHexColor seedColors.primary_seed_hex 0 = .ok t.primary_100 ∧
        shadeHexColor seedColors.primary_seed_hex 0.2 = .ok t.primary_80 ∧
        shadeHexColor seedColors.primary_seed_hex 0.4 = .ok t.primary_60) ∧
    (∀ channel : ℚ, 0 ≤ channel → channel ≤ 255 →
      lightenChannel channel 0 ≤ lightenChannel channel 0.2 ∧
      lightenChannel channel 0 ≤ lightenChannel channel 0.4) ∧
    (∃ t, generatePaletteTokensFromSeeds tokyoNightTestSeeds = .ok t ∧
      t.primary_100 = "158, 206, 106" ∧ t.primary_80 = "177, 216, 136" ∧
      t.primary_60 = "197, 226, 166") := by
  refine ⟨?_, ?_, ?_⟩
  · intro s h
    have hv := h
    rw [seedsAllValid] at hv
    simp only [Bool.and_eq_true] at hv
    obtain ⟨⟨⟨⟨⟨⟨⟨⟨⟨hbg, htx⟩, hpr⟩, hse⟩, hgr⟩, hre⟩, hye⟩, hbl⟩, hma⟩, hcy⟩ := hv
    rw [generate_eq_of_valid s h]
    exact ⟨_, rfl, rfl, rfl, shadeHexColor_of_valid hbg 0, shadeHexColor_of_valid htx 0,
      shadeHexColor_of_valid hpr 0, shadeHexColor_of_valid hpr 0.2,
      shadeHexColor_of_valid hpr 0.4⟩
  · intro c h0 h255
    have key : ∀ m : ℚ, 0 ≤ m → m ≤ 1 →
        lightenChannel c 0 ≤ lightenChannel c m := by
      intro m hm0 hm1
      show round (max 0 (min 255 (c + (255 - c) * 0))) ≤
        round (max 0 (min 255 (c + (255 - c) * m)))
      have hz : c + (255 - c) * 0 = c := by ring
      have hlow : c ≤ c + (255 - c) * m := by nlinarith
      have hub : c + (255 - c) * m ≤ 255 := by nlinarith
      rw [hz, min_eq_right h255, max_eq_right h0, min_eq_right hub,
        max_eq_right (le_trans h0 hlow), round_eq, round_eq]
      exact Int.floor_le_floor (by linarith)
    exact ⟨key 0.2 (by norm_num) (by norm_num), key 0.4 (by norm_num) (by norm_num)⟩
  · rw [generate_eq_of_valid tokyoNightTestSeeds (by decide)]
    have hch : hexChannelsD tokyoNightTestSeeds.primary_seed_hex = (158, 206, 106) := by
      decide
    refine ⟨_, rfl, ?_, ?_, ?_⟩ <;>
      simp only [shadeValue, hch] <;>
      rw [toRgbTriplet] <;>
      simp only [lightenChannel_mix_zero 158 (by norm_num),
        lightenChannel_mix_zero 206 (by norm_num), lightenChannel_mix_zero 106 (by norm_num),
        lightenChannel_mix_point2 158 (by norm_num), lightenChannel_mix_point2 206 (by norm_num),
        lightenChannel_mix_point2 106 (by norm_num), lightenChannel_mix_point4 158 (by norm_num),
        lightenChannel_mix_point4 206 (by norm_num),
        lightenChannel_mix_point4 106 (by norm_num)] <;>
      decide

/-- Witness for C6 at the repository test seed set and the channel 158. -/
theorem generatePaletteTokens_shades_and_scenario_witness :
    (∃ t, generatePaletteTokensFromSeeds tokyoNightTestSeeds = .ok t ∧
      t.black = t.text ∧ t.white = t.background ∧
      shadeHexColor tokyoNightTestSeeds.background_seed_hex 0 = .ok t.background ∧
      shadeHexColor tokyoNightTestSeeds.text_seed_hex 0 = .ok t.text ∧
      shadeHexColor tokyoNightTestSeeds.primary_seed_hex 0 = .ok t.primary_100 ∧
      shadeHexColor tokyoNightTestSeeds.primary_seed_hex 0.2 = .ok t.primary_80 ∧
      shadeHexColor tokyoNightTestSeeds.primary_seed_hex 0.4 = .ok t.primary_60) ∧
    (lightenChannel 158 0 ≤ lightenChannel 158 0.2 ∧
      lightenChannel 158 0 ≤ lightenChannel 158 0.4) :=
  ⟨generatePaletteTokens_shades_and_scenario.1 tokyoNightTestSeeds (by decide),
   generatePaletteTokens_shades_and_scenario.2.1 158 (by norm_num) (by norm_num)⟩

/-! ## C1 -/

/-- While a refresh operation `op` is pending, further calls change nothing
but the observation log, and every new observation is of `op`. -/
theorem singleFlight_calls_preserve (calls : List Nat) :
    ∀ (s : SingleFlightState) (op : Nat) (tail : List Nat), s.pending = op :: tail →
      ((calls.map SingleFlightEvent.call).foldl singleFlightStep s).pending = s.pending ∧
      ((calls.map SingleFlightEvent.call).foldl singleFlightStep s).nextOpId = s.nextOpId ∧
      ((calls.map SingleFlightEvent.call).foldl singleFlightStep s).networkCalls =
        s.networkCalls ∧
      ∀ pr ∈ ((calls.map SingleFlightEvent.call).foldl singleFlightStep s).observed,
        pr ∈ s.observed ∨ pr.2 = op := by
  induction calls with
  | nil =>
    intro s op tail hp
    exact ⟨rfl, rfl, rfl, fun pr hpr => Or.inl hpr⟩
  | cons c cs ih =>
    intro s op tail hp
    have hstep : singleFlightStep s (.call c) =
        { s with observed := (c, op) :: s.observed } := by
      simp [singleFlightStep, hp]
    simp only [List.map_cons, List.foldl_cons, hstep]
    obtain ⟨h1, h2, h3, h4⟩ :=
      ih { s with observed := (c, op) :: s.observed } op tail hp
    refine ⟨h1, h2, h3, fun pr hpr => ?_⟩
    rcases h4 pr hpr with hin | hop
    · rcases List.mem_cons.mp hin with heq | hin'
      · right
        rw [heq]
      · left
        exact hin'
    · right
      exact hop

/-- C1: for every nonempty batch of refresh calls issued before the pending
operation settles, exactly one network call is started (operation 0), every
caller is handed that same operation, settling — fulfilment or rejection —
clears the shared handle, and only a call arriving after the settle starts a
second network call; moreover, under arbitrary event sequences, at most one
refresh operation is ever in flight. -/
theorem refresh_single_flight :
    (∀ callers : List Nat, callers ≠ [] →
      (singleFlightRun (callers.map .call)).networkCalls = 1 ∧
      (singleFlightRun (callers.map .call)).pending = [0] ∧
      (∀ pr ∈ (singleFlightRun (callers.map .call)).observed, pr.2 = 0) ∧
      (∀ success : Bool,
        (singleFlightStep (singleFlightRun (callers.map .call))
          (.settle success)).pending = [] ∧
        ∀ c, (singleFlightStep (singleFlightStep (singleFlightRun (callers.map .call))
          (.settle success)) (.call c)).networkCalls = 2)) ∧
    (∀ events : List SingleFlightEvent, (singleFlightRun events).pending.length ≤ 1) := by
  constructor
  · intro callers hne
    rcases callers with _ | ⟨c0, cs⟩
    · exact absurd rfl hne
    have hs1 : singleFlightStep initialSingleFlight (.call c0) =
        { pending := [0], nextOpId := 1, networkCalls := 1, observed := [(c0, 0)] } := rfl
    have hrun : singleFlightRun ((c0 :: cs).map .call) =
        (cs.map SingleFlightEvent.call).foldl singleFlightStep
          { pending := [0], nextOpId := 1, networkCalls := 1, observed := [(c0, 0)] } := by
      simp [singleFlightRun, hs1]
    obtain ⟨hp, hn, hc, hobs⟩ :=
      singleFlight_calls_preserve cs
        { pending := [0], nextOpId := 1, networkCalls := 1, observed := [(c0, 0)] } 0 [] rfl
    rw [hrun]
    refine ⟨hc, hp, ?_, ?_⟩
    · intro pr hpr
      rcases hobs pr hpr with hin | hop
      · simp only [List.mem_singleton] at hin
        rw [hin]
      · exact hop
    · intro success
      constructor
      · simp [singleFlightStep]
      · intro c
        simp [singleFlightStep, hc]
  · have inv : ∀ (events : List SingleFlightEvent) (s : SingleFlightState),
        s.pending.length ≤ 1 → (events.foldl singleFlightStep s).pending.length ≤ 1 := by
      intro events
      induction events with
      | nil => exact fun s h => h
      | cons e es ih =>
        intro s h
        apply ih
        cases e with
        | call c =>
          cases hp : s.pending with
          | nil => simp [singleFlightStep, hp]
          | cons op tail =>
            rw [hp] at h
            simpa [singleFlightStep, hp] using h
        | settle success => simp [singleFlightStep]
    exact fun events => inv events initialSingleFlight (by simp [initialSingleFlight])

/-- Witness for C1: two concurrent callers, then a settle, then a third
caller. -/
theorem refresh_single_flight_witness :
    (singleFlightRun ([5, 9].map .call)).networkCalls = 1 ∧
    (singleFlightRun ([5, 9].map .call)).pending = [0] ∧
    (∀ pr ∈ (singleFlightRun ([5, 9].map .call)).observed, pr.2 = 0) ∧
    (∀ success : Bool,
      (singleFlightStep (singleFlightRun ([5, 9].map .call)) (.settle success)).pending = [] ∧
      ∀ c, (singleFlightStep (singleFlightStep (singleFlightRun ([5, 9].map .call))
        (.settle success)) (.call c)).networkCalls = 2) :=
  refresh_single_flight.1 [5, 9] (by decide)

/-! ## C4 -/

/-- C4: when the shared `/auth/me` fetch of a coalesced `refreshUser` episode
fails, the stored user snapshot is set to `null` before any caller observes
the outcome (it is the very first event of the episode), and each caller's
returned promise rejects with the underlying error exactly when that caller
passed `throwOnError` — otherwise it resolves and the error is swallowed.
This holds for the caller that started the network call (index 0) and for
every caller that attached to the in-flight operation alike. -/
theorem refreshUser_failure_clears_user_then_settles :
    ∀ (throwOnErrorOf : List Bool) (e : Nat),
      (refreshUserEpisode throwOnErrorOf (.error e)).head? = some (.userSet none) ∧
      (∀ c opt, throwOnErrorOf[c]? = some opt →
        AuthEvent.observe c (if opt then .error e else .ok ()) ∈
          refreshUserEpisode throwOnErrorOf (.error e)) ∧
      (∀ c r, AuthEvent.observe c r ∈ refreshUserEpisode throwOnErrorOf (.error e) →
        ∃ opt, throwOnErrorOf[c]? = some opt ∧
          r = (if opt then .error e else .ok ())) := by
  intro opts e
  refine ⟨rfl, ?_, ?_⟩
  · intro c opt hc
    have hmem : (c, opt) ∈ opts.enum := by
      rw [List.mem_enum_iff_getElem?]
      exact hc
    refine List.mem_append_right _ ?_
    exact List.mem_map.mpr ⟨(c, opt), hmem, rfl⟩
  · intro c r hmem
    rw [refreshUserEpisode, List.mem_append] at hmem
    rcases hmem with h | h
    · simp [runRefreshOperation] at h
    · obtain ⟨⟨i, o⟩, hio, heq⟩ := List.mem_map.mp h
      rw [callerSettles] at heq
      injection heq with h1 h2
      refine ⟨o, ?_, ?_⟩
      · rw [← h1]
        exact List.mem_enum_iff_getElem?.mp hio
      · rw [← h2]
/-- Witness for C4: two callers, the starter with `throwOnError` and an
attached caller without; the user is cleared first, the starter's promise
rejects with the error, the attached caller's promise resolves. -/
theorem refreshUser_failure_clears_user_then_settles_witness :
    (refreshUserEpisode [true, false] (.error 3)).head? = some (.userSet none) ∧
    AuthEvent.observe 0 (.error 3) ∈ refreshUserEpisode [true, false] (.error 3) ∧
    AuthEvent.observe 1 (.ok ()) ∈ refreshUserEpisode [true, false] (.error 3) :=
  ⟨(refreshUser_failure_clears_user_then_settles [true, false] 3).1,
   (refreshUser_failure_clears_user_then_settles [true, false] 3).2.1 0 true rfl,
   (refreshUser_failure_clears_user_then_settles [true, false] 3).2.1 1 false rfl⟩

/-! ## C2 -/

/-- A request whose config is already marked `_retry = true` performs exactly
one send: any further rejection is rethrown by the interceptor guard. -/
theorem execRequest_retried {cfg : RetryableRequestConfig} (h : cfg.retryFlag = true)
    (net : Nat → AttemptOutcome) (refreshResult : Except AxiosErrorModel Unit)
    (attempt : Nat) :
    (execRequest cfg net refreshResult attempt).1 = 1 := by
  unfold execRequest
  cases hnet : net attempt with
  | success => simp
  | failure status hasConfig =>
    cases hasConfig with
    | true => simp [interceptorThrowsImmediately, h]
    | false => simp [interceptorThrowsImmediately]

/-- C2: every request through the response interceptor is sent at most twice
(resent at most once after a 401); a 401 on a request already marked retried
propagates that attempt's own error without a further send; a 401 whose URL
contains `/auth/log-in` or `/auth/refresh` is never retried; and an error
without an associated config is never retried. -/
theorem interceptor_retries_at_most_once :
    (∀ (cfg : RetryableRequestConfig) (net : Nat → AttemptOutcome)
       (refreshResult : Except AxiosErrorModel Unit) (attempt : Nat),
      (execRequest cfg net refreshResult attempt).1 ≤ 2) ∧
    (∀ (cfg : RetryableRequestConfig) (net : Nat → AttemptOutcome)
       (refreshResult : Except AxiosErrorModel Unit) (attempt : Nat),
      cfg.retryFlag = true → net attempt = .failure (some 401) true →
      execRequest cfg net refreshResult attempt =
        (1, .error ⟨some cfg, some 401, .attempt attempt⟩)) ∧
    (∀ (cfg : RetryableRequestConfig) (net : Nat → AttemptOutcome)
       (refreshResult : Except AxiosErrorModel Unit) (attempt : Nat),
      urlIncludes (cfg.url.getD "") "/auth/log-in" = true ∨
        urlIncludes (cfg.url.getD "") "/auth/refresh" = true →
      net attempt = .failure (some 401) true →
      execRequest cfg net refreshResult attempt =
        (1, .error ⟨some cfg, some 401, .attempt attempt⟩)) ∧
    (∀ (cfg : RetryableRequestConfig) (net : Nat → AttemptOutcome)
       (refreshResult : Except AxiosErrorModel Unit) (attempt : Nat) (status : Option Nat),
      net attempt = .failure status false →
      execRequest cfg net refreshResult attempt =
        (1, .error ⟨none, status, .attempt attempt⟩)) := by
  refine ⟨?_, ?_, ?_, ?_⟩
  · intro cfg net refreshResult attempt
    unfold execRequest
    cases hnet : net attempt with
    | success => simp
    | failure status hasConfig =>
      by_cases hthrow :
        interceptorThrowsImmediately (if hasConfig then some cfg else none) status = true
      · simp [hthrow]
      · have hthrow' :
            interceptorThrowsImmediately (if hasConfig then some cfg else none) status =
              false := by
          simpa using hthrow
        cases refreshResult with
        | error refreshErr => simp [awaitRefreshThen, hthrow']
        | ok u =>
          have hone := @execRequest_retried { cfg with retryFlag := true } rfl net
            (.ok u) (attempt + 1)
          simp [awaitRefreshThen, hthrow']
          omega
  · intro cfg net refreshResult attempt hretry hnet
    unfold execRequest
    rw [hnet]
    simp [interceptorThrowsImmediately, hretry]
  · intro cfg net refreshResult attempt hurl hnet
    unfold execRequest
    rw [hnet]
    rcases hurl with h | h <;> simp [interceptorThrowsImmediately, h]
  · intro cfg net refreshResult attempt status hnet
    unfold execRequest
    rw [hnet]
    simp [interceptorThrowsImmediately]

/-- Witness for C2: a twice-401 request is sent at most twice; an
already-retried request, a login-endpoint request and a config-less error
each fail over without a retry. -/
theorem interceptor_retries_at_most_once_witness :
    (execRequest { url := some "/auth/me", retryFlag := false }
      (fun _ => .failure (some 401) true) (.ok ()) 0).1 ≤ 2 ∧
    execRequest { url := some "/auth/me", retryFlag := true }
        (fun _ => .failure (some 401) true) (.ok ()) 0 =
      (1, .error ⟨some { url := some "/auth/me", retryFlag := true }, some 401,
        .attempt 0⟩) ∧
    execRequest { url := some "/auth/log-in", retryFlag := false }
        (fun _ => .failure (some 401) true) (.ok ()) 0 =
      (1, .error ⟨some { url := some "/auth/log-in", retryFlag := false }, some 401,
        .attempt 0⟩) ∧
    execRequest { url := some "/auth/me", retryFlag := false }
        (fun _ => .failure (some 500) false) (.ok ()) 0 =
      (1, .error ⟨none, some 500, .attempt 0⟩) :=
  ⟨interceptor_retries_at_most_once.1 _ _ _ _,
   interceptor_retries_at_most_once.2.1 _ _ _ _ rfl rfl,
   interceptor_retries_at_most_once.2.2.1 _ _ _ _ (Or.inl (by decide)) rfl,
   interceptor_retries_at_most_once.2.2.2 _ _ _ _ (some 500) rfl⟩

/-! ## C3 -/

/-- Counterexample to C3 as stated: when the refresh triggered by a 401 on
`/auth/me` itself fails, the interceptor's rejection carries the *refresh
operation's* error, not the original request's 401 error that entered the
interceptor — `await refreshAccessToken()` rethrows the refresh rejection out
of the handler before `api(requestConfig)` is reached. -/
theorem interceptor_refresh_failure_not_original_error :
    execRequest { url := some "/auth/me", retryFlag := false }
        (fun _ => .failure (some 401) true) (.error c3RefreshError) 0 =
      (1, .error c3RefreshError) ∧
    c3RefreshError ≠ c3OriginalError := by
  constructor
  · have hcond : interceptorThrowsImmediately
        (some { url := some "/auth/me", retryFlag := false }) (some 401) = false := by decide
    unfold execRequest
    simp [hcond, awaitRefreshThen]
  · decide

/-- C3 (amended): in the 401 recovery path, if the triggered token refresh
fails then the *refresh operation's* failure (not the original 401) is
propagated to the caller, no retry of the original request is attempted
(exactly one send), and the shared pending-refresh handle is cleared when the
refresh settles, regardless of the outcome. -/
theorem interceptor_refresh_failure_behavior :
    (∀ (cfg : RetryableRequestConfig) (net : Nat → AttemptOutcome) (attempt : Nat)
       (statusCode : Option Nat) (refreshErr : AxiosErrorModel),
      net attempt = .failure statusCode true →
      interceptorThrowsImmediately (some cfg) statusCode = false →
      execRequest cfg net (.error refreshErr) attempt = (1, .error refreshErr)) ∧
    (∀ (s : SingleFlightState) (success : Bool),
      (singleFlightStep s (.settle success)).pending = []) := by
  constructor
  · intro cfg net attempt statusCode refreshErr hnet hcond
    unfold execRequest
    rw [hnet]
    simp [hcond, awaitRefreshThen]
  · intro s success
    simp [singleFlightStep]

/-- Witness for C3 (amended): the concrete `/auth/me` request with a failing
refresh, and a settle of a pending refresh handle. -/
theorem interceptor_refresh_failure_behavior_witness :
    execRequest { url := some "/auth/me", retryFlag := false }
        (fun _ => .failure (some 401) true) (.error c3OriginalError) 0 =
      (1, .error c3OriginalError) ∧
    (singleFlightStep { pending := [0], nextOpId := 1, networkCalls := 1, observed := [] }
      (.settle false)).pending = [] :=
  ⟨interceptor_refresh_failure_behavior.1 _ _ 0 (some 401) c3OriginalError rfl (by decide),
   interceptor_refresh_failure_behavior.2 _ false⟩

end AuthTemplate
